import Mathlib

/-!
# Verification of the go-qbt session-and-retry engine

Shallow embedding of the session/retry/error-classification core of the
`go-qbt` qBittorrent client (files `client.go`, `errors.go`, `sdk.go`).
Durations are modelled as natural numbers of nanoseconds (Go's
`time.Duration` is an integer nanosecond count; all durations handled by
the retry code are non-negative).  Network traffic is modelled by an
environment function `Nat → NetResult` giving the outcome of the n-th
request issued by the client, together with a request counter carried in
the client state.  Time-based fields (`lastLoginTime`, cookie-expiry
timestamps) and context cancellation are outside the embedding: every
claim below concerns runs in which the context is never cancelled (the
retry loop used by `doWithRetry` is in fact always given
`context.Background()`), and no claim depends on wall-clock time.
-/

namespace GoQbt

/-- Error codes from `errors.go` (`ErrorCode` constants). -/
inductive ErrorCode where
  | none
  | authFailure
  | timeout
  | dns
  | httpsRequired
  | sslError
  | versionIncompatible
  | connectionRefused
  | networkUnreachable
  | badGateway
  | serviceUnavailable
  | unknown
deriving DecidableEq, Repr

/-- The string value of each `ErrorCode` constant (`errors.go`). -/
def ErrorCode.str : ErrorCode → String
  | .none => ""
  | .authFailure => "AUTH_FAILURE"
  | .timeout => "TIMEOUT"
  | .dns => "DNS_ERROR"
  | .httpsRequired => "HTTPS_REQUIRED"
  | .sslError => "SSL_ERROR"
  | .versionIncompatible => "VERSION_INCOMPATIBLE"
  | .connectionRefused => "CONNECTION_REFUSED"
  | .networkUnreachable => "NETWORK_UNREACHABLE"
  | .badGateway => "BAD_GATEWAY"
  | .serviceUnavailable => "SERVICE_UNAVAILABLE"
  | .unknown => "UNKNOWN"

/-- Go `error` values as the classifier sees them.  Each constructor is one
of the concrete error types inspected by `ClassifyError` in `errors.go`:

* `client`: a `*ClientError` (code, message, wrapped cause, permanent bit);
  its `Unwrap` returns the cause.
* `dns`: a `*net.DNSError` carrying the hostname; it has no `Unwrap`.
* `op`: a `*net.OpError`; `operation` is its `Op` field, `msg` is the full
  rendered text of its `Error()` method, `timeout` the result of its
  `Timeout()` method, `inner` its `Unwrap`.
* `url`: a `*url.Error`; `msg` its rendered `Error()` text, `timeout` its
  `Timeout()`, `inner` its `Err` field (also its `Unwrap`).
* `cert`: a `*tls.CertificateVerificationError` with its `Unwrap`.
* `wrap`: an error produced by `fmt.Errorf("...: %w", inner)` — its text is
  the prefix followed by the inner error's text, and it unwraps to `inner`.
* `str`: any other error, carrying only its message (no `Unwrap`). -/
inductive GoError where
  | client (code : ErrorCode) (message : String) (cause : Option GoError) (permanent : Bool)
  | dns (name : String)
  | op (operation : String) (msg : String) (timeout : Bool) (inner : Option GoError)
  | url (msg : String) (timeout : Bool) (inner : Option GoError)
  | cert (inner : Option GoError)
  | wrap (pre : String) (inner : GoError)
  | str (msg : String)

/-- ASCII lower-casing, matching Go's `strings.ToLower` on the ASCII
pattern strings used by `classifyByMessage`. -/
def lowerStr (s : String) : String := ⟨s.data.map Char.toLower⟩

/-- Whether `pat` is a leading segment of `l`. -/
def startsWithChars [DecidableEq α] : List α → List α → Bool
  | [], _ => true
  | _ :: _, [] => false
  | x :: xs, y :: ys => decide (x = y) && startsWithChars xs ys

/-- Whether `pat` occurs as a contiguous segment of `l`. -/
def containsChars [DecidableEq α] (pat : List α) : List α → Bool
  | [] => pat.isEmpty
  | y :: ys => startsWithChars pat (y :: ys) || containsChars pat ys

/-- Go's `strings.Contains(s, pat)`: `pat` occurs as a substring of `s`. -/
def containsSubstr (s pat : String) : Bool := containsChars pat.data s.data

/-- Rendering of each error's `Error()` method.  `op` and `url` carry their
rendered text directly; a `dns` error renders in the `net` package's
`lookup <host>` form; a `cert` error renders with the `crypto/tls` text. -/
def errString : GoError → String
  | .client code m (some e) _ => code.str ++ ": " ++ m ++ " (" ++ errString e ++ ")"
  | .client code m Option.none _ => code.str ++ ": " ++ m
  | .dns name => "lookup " ++ name ++ ": no such host"
  | .op _ msg _ _ => msg
  | .url msg _ _ => msg
  | .cert _ => "tls: failed to verify certificate"
  | .wrap pre e => pre ++ errString e
  | .str m => m

/-- The `errors.Unwrap` chain of an error: the error itself followed by the
chains of successive `Unwrap` results.  `errors.As(err, &target)` succeeds
exactly when some element of `chain err` has the target's dynamic type. -/
def chain : GoError → List GoError
  | e@(.client _ _ (some i) _) => e :: chain i
  | e@(.client _ _ Option.none _) => [e]
  | e@(.dns _) => [e]
  | e@(.op _ _ _ (some i)) => e :: chain i
  | e@(.op _ _ _ Option.none) => [e]
  | e@(.url _ _ (some i)) => e :: chain i
  | e@(.url _ _ Option.none) => [e]
  | e@(.cert (some i)) => e :: chain i
  | e@(.cert Option.none) => [e]
  | e@(.wrap _ i) => e :: chain i
  | e@(.str _) => [e]

/-- Whether an error is a `*ClientError`. -/
def isClient : GoError → Bool
  | .client _ _ _ _ => true
  | _ => false

/-- Semantics of `errors.As(err, &clientErr)`: the first `*ClientError` in the chain. -/
def asClientError (e : GoError) : Option GoError := (chain e).find? isClient

/-- The `Code` of a `*ClientError` value. -/
def clientCode : GoError → Option ErrorCode
  | .client c _ _ _ => some c
  | _ => Option.none

/-- The `Message` of a `*ClientError` value. -/
def clientMsg : GoError → String
  | .client _ m _ _ => m
  | _ => ""

/-- The `Permanent` bit of a `*ClientError` value. -/
def clientPerm : GoError → Bool
  | .client _ _ _ p => p
  | _ => false

/-- Embeds `NewClientError` from `errors.go`. -/
def NewClientError (code : ErrorCode) (message : String) (err : Option GoError)
    (permanent : Bool) : GoError :=
  .client code message err permanent

/-- Semantics of `errors.As(err, &dnsErr)`: hostname of the first `*net.DNSError` in the
unwrap chain. -/
def asDNSName : GoError → Option String
  | .dns name => some name
  | .client _ _ (some i) _ => asDNSName i
  | .client _ _ Option.none _ => Option.none
  | .op _ _ _ (some i) => asDNSName i
  | .op _ _ _ Option.none => Option.none
  | .url _ _ (some i) => asDNSName i
  | .url _ _ Option.none => Option.none
  | .cert (some i) => asDNSName i
  | .cert Option.none => Option.none
  | .wrap _ i => asDNSName i
  | .str _ => Option.none

/-- Semantics of `errors.As(err, &opErr)`: `(Op, Error() text, Timeout())` of the first
`*net.OpError` in the unwrap chain. -/
def asOpError : GoError → Option (String × String × Bool)
  | .op operation msg timeout _ => some (operation, msg, timeout)
  | .client _ _ (some i) _ => asOpError i
  | .client _ _ Option.none _ => Option.none
  | .dns _ => Option.none
  | .url _ _ (some i) => asOpError i
  | .url _ _ Option.none => Option.none
  | .cert (some i) => asOpError i
  | .cert Option.none => Option.none
  | .wrap _ i => asOpError i
  | .str _ => Option.none

/-- Semantics of `errors.As(err, &urlErr)`: `(Error() text, Timeout(), Err)` of the first
`*url.Error` in the unwrap chain. -/
def asURL : GoError → Option (String × Bool × Option GoError)
  | .url msg timeout inner => some (msg, timeout, inner)
  | .client _ _ (some i) _ => asURL i
  | .client _ _ Option.none _ => Option.none
  | .dns _ => Option.none
  | .op _ _ _ (some i) => asURL i
  | .op _ _ _ Option.none => Option.none
  | .cert (some i) => asURL i
  | .cert Option.none => Option.none
  | .wrap _ i => asURL i
  | .str _ => Option.none

/-- Semantics of `errors.As(err, &certErr)`: whether the unwrap chain contains a
`*tls.CertificateVerificationError`. -/
def asCert : GoError → Bool
  | .cert _ => true
  | .client _ _ (some i) _ => asCert i
  | .client _ _ Option.none _ => false
  | .dns _ => false
  | .op _ _ _ (some i) => asCert i
  | .op _ _ _ Option.none => false
  | .url _ _ (some i) => asCert i
  | .url _ _ Option.none => false
  | .wrap _ i => asCert i
  | .str _ => false

/-- Embeds `classifyOpError` from `errors.go`: classifies a `*net.OpError` given
its `Op` field, rendered message, and `Timeout()` result. -/
def classifyOpError (operation msg : String) (timeout : Bool) (originalErr : GoError) :
    GoError :=
  if operation = "dial" && containsSubstr msg "connection refused" then
    NewClientError .connectionRefused
      "Connection refused - server may be down or port is incorrect" (some originalErr) false
  else if operation = "dial" &&
      (containsSubstr msg "no route to host" || containsSubstr msg "network is unreachable") then
    NewClientError .networkUnreachable
      "Network unreachable - check network connectivity" (some originalErr) false
  else if timeout then
    NewClientError .timeout "Connection timed out" (some originalErr) false
  else
    NewClientError .unknown "Network operation failed" (some originalErr) false

/-- Embeds `classifyByMessage` from `errors.go`: ordered case-insensitive
substring patterns over the error's rendered message. -/
def classifyByMessage (errStr : String) (err : GoError) : GoError :=
  let lowerErr := lowerStr errStr
  if containsSubstr lowerErr "timeout" || containsSubstr lowerErr "deadline exceeded" ||
      containsSubstr lowerErr "context canceled" then
    NewClientError .timeout "Request timed out" (some err) false
  else if containsSubstr lowerErr "certificate" || containsSubstr lowerErr "x509" ||
      containsSubstr lowerErr "tls" || containsSubstr lowerErr "ssl" then
    NewClientError .sslError
      "SSL/TLS connection failed - check certificate configuration" (some err) true
  else if containsSubstr lowerErr "malformed http response" ||
      containsSubstr lowerErr "first record does not look like a tls handshake" then
    NewClientError .httpsRequired
      "Protocol mismatch - try using HTTPS instead of HTTP" (some err) true
  else if containsSubstr lowerErr "connection refused" then
    NewClientError .connectionRefused "Connection refused - server may be down" (some err) false
  else if containsSubstr lowerErr "no such host" || containsSubstr lowerErr "lookup" ||
      containsSubstr lowerErr "dns" then
    NewClientError .dns "DNS resolution failed - check hostname" (some err) true
  else if containsSubstr lowerErr "fails." || containsSubstr lowerErr "unauthorized" ||
      containsSubstr lowerErr "authentication failed" ||
      containsSubstr lowerErr "invalid username" ||
      containsSubstr lowerErr "invalid password" ||
      containsSubstr lowerErr "invalid credentials" then
    NewClientError .authFailure "Invalid username or password" (some err) true
  else
    NewClientError .unknown "Unknown error occurred" (some err) false

/-- The non-`url` tail of `ClassifyError`: the TLS-certificate check
followed by the free-text fallback. -/
def certOrMessage (err : GoError) : GoError :=
  if asCert err then
    NewClientError .sslError "SSL certificate verification failed" (some err) true
  else classifyByMessage (errString err) err

/-- A `url.Error` whose `Err` is non-nil makes `ClassifyError` recurse on a
strictly smaller error. -/
theorem asURL_sizeOf :
    ∀ (e : GoError) (m : String) (t : Bool) (i : GoError),
      asURL e = some (m, t, some i) → sizeOf i < sizeOf e
  | .url _ _ inner, m, t, i, h => by
      simp only [asURL, Option.some.injEq, Prod.mk.injEq] at h
      obtain ⟨-, -, hi⟩ := h
      subst hi
      simp only [GoError.url.sizeOf_spec, Option.some.sizeOf_spec]
      omega
  | .client _ _ (some j) _, m, t, i, h => by
      have := asURL_sizeOf j m t i h
      simp only [GoError.client.sizeOf_spec, Option.some.sizeOf_spec]
      omega
  | .op _ _ _ (some j), m, t, i, h => by
      have := asURL_sizeOf j m t i h
      simp only [GoError.op.sizeOf_spec, Option.some.sizeOf_spec]
      omega
  | .cert (some j), m, t, i, h => by
      have := asURL_sizeOf j m t i h
      simp only [GoError.cert.sizeOf_spec, Option.some.sizeOf_spec]
      omega
  | .wrap _ j, m, t, i, h => by
      have := asURL_sizeOf j m t i h
      simp only [GoError.wrap.sizeOf_spec]
      omega

/-- Embeds `ClassifyError` from `errors.go`.  Checks, in source order: an already
classified `*ClientError` anywhere in the chain; a DNS error; a network
operation error; a `url.Error` (recursing on its wrapped cause when
non-nil, else its timeout flag); the TLS-certificate error; and finally
the free-text message patterns. -/
def ClassifyError (err : GoError) : GoError :=
  match asClientError err with
  | some clientErr => clientErr
  | Option.none =>
  match asDNSName err with
  | some name =>
      NewClientError .dns ("Failed to resolve hostname: " ++ name) (some err) true
  | Option.none =>
  match asOpError err with
  | some (operation, msg, timeout) => classifyOpError operation msg timeout err
  | Option.none =>
  match h : asURL err with
  | some (_, _, some i) => ClassifyError i
  | some (_, timeout, Option.none) =>
      if timeout then NewClientError .timeout "Request timed out" (some err) false
      else certOrMessage err
  | Option.none => certOrMessage err
termination_by sizeOf err
decreasing_by exact asURL_sizeOf err _ _ _ h

/-- Embeds `IsPermanentError` from `errors.go`. -/
def IsPermanentError (err : GoError) : Bool :=
  match asClientError err with
  | some clientErr => clientPerm clientErr
  | Option.none => clientPerm (ClassifyError err)

/-- Embeds `classifyHTTPStatusCode` from `errors.go`. -/
def classifyHTTPStatusCode (statusCode : Nat) (body : String) : GoError :=
  if statusCode = 401 || statusCode = 403 then
    NewClientError .authFailure
      ("Authentication failed with status " ++ toString statusCode) Option.none true
  else if statusCode = 502 then
    NewClientError .badGateway ("Bad Gateway (502): " ++ body) Option.none false
  else if statusCode = 503 then
    NewClientError .serviceUnavailable
      ("Service Unavailable (503): " ++ body) Option.none false
  else if statusCode = 504 then
    NewClientError .timeout ("Gateway Timeout (504): " ++ body) Option.none false
  else
    NewClientError .unknown
      ("Request failed with status " ++ toString statusCode ++ ": " ++ body) Option.none false

/-- Default configuration constants (`client.go`), in nanoseconds. -/
def DefaultRequestTimeout : Nat := 30000000000

/-- Embeds `DefaultMaxRetries` from `client.go`. -/
def DefaultMaxRetries : Nat := 3

/-- Embeds `DefaultRetryBackoff` (1s) from `client.go`, in nanoseconds. -/
def DefaultRetryBackoff : Nat := 1000000000

/-- Embeds `DefaultMaxDelay` (30s) from `client.go`, in nanoseconds. -/
def DefaultMaxDelay : Nat := 30000000000

/-- Retry configuration (`RetryConfig` in `models.go`); durations are
nanosecond counts.  The repository's only constructor, `newRetryConfig`,
pins `BackoffFactor` to `DefaultBackoffFactor = 2.0`; multiplying an
integral nanosecond count by the float literal `2.0` is exact, so the
backoff multiplication is embedded as doubling and the factor is not a
field. -/
structure RetryConfig where
  MaxRetries : Nat
  BaseDelay : Nat
  MaxDelay : Nat
  RetryableCodes : List Nat

/-- Embeds `newRetryConfig` from `client.go`: `MaxRetries` and `BaseDelay` come
from the user configuration (after `New` replaced zero values by
defaults), `MaxDelay` and the retryable status set are fixed. -/
def newRetryConfig (maxRetries retryBackoff : Nat) : RetryConfig :=
  { MaxRetries := maxRetries
    BaseDelay := retryBackoff
    MaxDelay := DefaultMaxDelay
    RetryableCodes := [408, 429, 500, 502, 503, 504] }

/-- The loop of `calculateBackoffDelay` (`client.go`): starting from
`delay`, iterate `attempt` times: double the delay and, if it exceeds
`maxDelay`, clamp to `maxDelay` and stop. -/
def backoffLoop (maxDelay : Nat) : Nat → Nat → Nat
  | 0, delay => delay
  | i + 1, delay =>
      let d := delay * 2
      if maxDelay < d then maxDelay else backoffLoop maxDelay i d

/-- Embeds `calculateBackoffDelay` from `client.go`. -/
def calculateBackoffDelay (cfg : RetryConfig) (attempt : Nat) : Nat :=
  backoffLoop cfg.MaxDelay attempt cfg.BaseDelay

/-- The example configuration of C4: base 1s, factor 2.0, ceiling 10s. -/
def backoffExampleConfig : RetryConfig :=
  { MaxRetries := 3
    BaseDelay := 1000000000
    MaxDelay := 10000000000
    RetryableCodes := [408, 429, 500, 502, 503, 504] }

/-- Connection status of the client (`status` field; the spec's
{Initializing, Connected, Unauthorized, Unreachable}).  The string values
of the `Status*` constants are not under `src/`; only the identity of the
status matters to the claims, so it is embedded as an enumeration. -/
inductive ClientStatus where
  | initializing
  | connected
  | unauthorized
  | unaccessible
deriving DecidableEq, Repr

/-- Outcome of one call to `request.Do`: a transport error, or a response
with status code, body text and returned session cookies (name/value). -/
inductive NetResult where
  | err (e : GoError)
  | resp (statusCode : Nat) (body : String) (cookies : List (String × String))

/-- The session-relevant state of a `Client`.  `cookieCache` is the
`CookieCache` cookie map as an association list (name, value);
`sweepRunning` records whether the `startCookieCleanup` background
goroutine spawned by `New` is running; `netCount` counts the network
requests issued so far (instrumentation used to state the "no network
request" claims — the n-th request receives outcome `env n`). -/
structure ClientState where
  cookieCache : List (String × String)
  cookieValid : Bool
  status : ClientStatus
  lastError : Option GoError
  authFailed : Bool
  sweepRunning : Bool
  netCount : Nat

/-- State after `New` (with valid configuration): empty cache, invalid
cookie flag, `StatusInitializing`, no error, auth not failed, and the
cookie-cleanup goroutine started. -/
def initialClientState : ClientState :=
  { cookieCache := []
    cookieValid := false
    status := .initializing
    lastError := Option.none
    authFailed := false
    sweepRunning := true
    netCount := 0 }

/-- Issue one network request: the environment decides its outcome. -/
def doRequest (env : Nat → NetResult) (s : ClientState) : ClientState × NetResult :=
  ({ s with netCount := s.netCount + 1 }, env s.netCount)

/-- Embeds `setCookieValid` from `client.go`. -/
def setCookieValid (s : ClientState) (valid : Bool) : ClientState :=
  { s with cookieValid := valid }

/-- Embeds `setStatus` from `client.go`. -/
def setStatus (s : ClientState) (status : ClientStatus) : ClientState :=
  { s with status := status }

/-- Embeds `setAuthFailed` from `client.go`. -/
def setAuthFailed (s : ClientState) (failed : Bool) : ClientState :=
  { s with authFailed := failed }

/-- Embeds `IsAuthFailed` from `client.go`. -/
def IsAuthFailed (s : ClientState) : Bool := s.authFailed

/-- Embeds `isCookieValidCached` from `client.go`. -/
def isCookieValidCached (s : ClientState) : Bool := s.cookieValid

/-- Embeds `CookieCache.clear` from `client.go`: empties the cookie map (the
expiry/lastUsed time fields are outside the embedding). -/
def cookieCacheClear (s : ClientState) : ClientState :=
  { s with cookieCache := [] }

/-- Embeds `invalidateCookies` from `client.go`: validity flag false, cache
cleared, status `StatusUnauthorized`. -/
def invalidateCookies (s : ClientState) : ClientState :=
  setStatus (cookieCacheClear (setCookieValid s false)) .unauthorized

/-- One step of `CookieCache.update`'s loop: the Go map assignment
`cc.cookies[cookie.Name] = cookie`. -/
def insertCookie (cache : List (String × String)) (c : String × String) :
    List (String × String) :=
  match cache with
  | [] => [c]
  | x :: xs => if x.1 = c.1 then c :: xs else x :: insertCookie xs c

/-- Embeds `updateCookieCache` / `CookieCache.update` from `client.go`. -/
def updateCookieCache (s : ClientState) (cookies : List (String × String)) : ClientState :=
  { s with cookieCache := cookies.foldl insertCookie s.cookieCache }

/-- Embeds `SetLastError` from `client.go`: a nil error clears `lastError`;
otherwise the error is stored as a `*ClientError` (via `errors.As`, else
`ClassifyError`), and if the stored error's code is `AUTH_FAILURE` the
permanent auth-failure flag is latched. -/
def SetLastError (s : ClientState) (err : Option GoError) : ClientState :=
  match err with
  | Option.none => { s with lastError := Option.none }
  | some e =>
    let le := match asClientError e with
      | some clientErr => clientErr
      | Option.none => ClassifyError e
    let s1 : ClientState := { s with lastError := some le }
    if clientCode le = some .authFailure then setAuthFailed s1 true else s1

/-- Embeds `ResetAuthFailure` from `client.go`: clear the flag, clear the last
error, set status `StatusInitializing`. -/
def ResetAuthFailure (s : ClientState) : ClientState :=
  setStatus (SetLastError (setAuthFailed s false) Option.none) .initializing

/-- The permanent `ClientError` returned by `loginWithContext` and
`retryWithBackoffWithContext` when `authPermanentlyFailed` is set. -/
def authPermanentlyFailedError : GoError :=
  NewClientError .authFailure
    "Authentication has permanently failed - update credentials and restart" Option.none true

/-- Embeds `checkAccessibility` from `client.go`: an unauthenticated probe of the
version endpoint; transport errors and 5xx responses set status
`StatusUnaccessible`, record the classified error and fail. -/
def checkAccessibility (env : Nat → NetResult) (s : ClientState) :
    ClientState × Option GoError :=
  let pr := doRequest env s
  match pr.2 with
  | .err e =>
    let clientErr := ClassifyError e
    (SetLastError (setStatus pr.1 .unaccessible) (some clientErr), some clientErr)
  | .resp statusCode _ _ =>
    if 500 ≤ statusCode then
      let clientErr := classifyHTTPStatusCode statusCode ""
      (SetLastError (setStatus pr.1 .unaccessible) (some clientErr), some clientErr)
    else (pr.1, Option.none)

/-- ASCII whitespace, for Go's `strings.TrimSpace`. -/
def isSpaceChar (c : Char) : Bool :=
  c == ' ' || c == '\t' || c == '\n' || c == '\r'

/-- Go's `strings.TrimSpace` (on ASCII whitespace). -/
def trimStr (s : String) : String :=
  ⟨((s.data.dropWhile isSpaceChar).reverse.dropWhile isSpaceChar).reverse⟩

/-- Embeds `loginWithContext` from `client.go`.  Fails fast with a permanent
`AuthFailure` when `authPermanentlyFailed` is set; otherwise probes
accessibility, then posts the credentials: transport errors are
classified and set status `StatusUnaccessible`; a non-200 status is
classified by `classifyHTTPStatusCode`; a 200 body containing `Fails.`
latches the permanent auth failure; on success the returned cookies are
cached, the validity flag set, status `StatusConnected`, error cleared. -/
def loginWithContext (env : Nat → NetResult) (s : ClientState) :
    ClientState × Option GoError :=
  if IsAuthFailed s then (s, some authPermanentlyFailedError)
  else
    let ca := checkAccessibility env s
    match ca.2 with
    | some e => (ca.1, some e)
    | Option.none =>
      let pr := doRequest env ca.1
      match pr.2 with
      | .err e =>
        let clientErr := ClassifyError e
        (SetLastError (setStatus pr.1 .unaccessible) (some clientErr), some clientErr)
      | .resp statusCode body cookies =>
        let bodyStr := trimStr body
        if statusCode ≠ 200 then
          let clientErr := classifyHTTPStatusCode statusCode bodyStr
          (SetLastError pr.1 (some clientErr), some clientErr)
        else if containsSubstr bodyStr "Fails." then
          let clientErr := NewClientError .authFailure
            "Invalid username or password" Option.none true
          let s1 := setAuthFailed (SetLastError (setStatus pr.1 .unauthorized) (some clientErr)) true
          (s1, some clientErr)
        else
          (SetLastError
            (setStatus (setCookieValid (updateCookieCache pr.1 cookies) true) .connected)
            Option.none, Option.none)

/-- Result of a retry loop: final state, returned error, number of times
the operation closure was invoked, and the backoff sleeps performed (in
nanoseconds, in order). -/
structure RetryResult (σ : Type) where
  state : σ
  error : Option GoError
  invocations : Nat
  sleeps : List Nat

/-- The message prefix of the exhaustion error
`fmt.Errorf("%s failed after %d attempts: %w", name, maxRetries+1, lastErr)`. -/
def exhaustionMsg (name : String) (attempts : Nat) : String :=
  name ++ " failed after " ++ toString attempts ++ " attempts: "

/-- The loop of `retryWithBackoff` (`client.go`), with the loop counter
split into the current attempt index and the iterations remaining
(`remaining = MaxRetries − attempt`); on failure with iterations left it
sleeps `calculateBackoffDelay attempt` and continues, and after the last
attempt it returns the wrapped exhaustion error.  No permanence check is
performed by this variant. -/
def retryWithBackoffAux (cfg : RetryConfig) (op : σ → σ × Option GoError)
    (operationName : String) :
    Nat → Nat → σ → Nat → List Nat → RetryResult σ
  | attempt, remaining, s, count, sleeps =>
    let p := op s
    match p.2 with
    | Option.none => ⟨p.1, Option.none, count + 1, sleeps⟩
    | some e =>
      match remaining with
      | 0 => ⟨p.1, some (.wrap (exhaustionMsg operationName (cfg.MaxRetries + 1)) e),
          count + 1, sleeps⟩
      | r + 1 =>
          retryWithBackoffAux cfg op operationName (attempt + 1) r p.1 (count + 1)
            (sleeps ++ [calculateBackoffDelay cfg attempt])

/-- Embeds `retryWithBackoff` from `client.go`. -/
def retryWithBackoff (cfg : RetryConfig) (op : σ → σ × Option GoError)
    (operationName : String) (s : σ) : RetryResult σ :=
  retryWithBackoffAux cfg op operationName 0 cfg.MaxRetries s 0 []

/-- The loop of `retryWithBackoffWithContext` (`client.go`) for a
never-cancelled context (the `ctx.Done()` branches are not taken; the
loop used for login inside `doWithRetry` is in fact always run with
`context.Background()`).  Before each attempt the client's
`authPermanentlyFailed` flag aborts with the permanent auth error without
invoking the operation; a failure classified permanent by
`IsPermanentError` is returned immediately without further attempts. -/
def retryWithBackoffWithContextAux (cfg : RetryConfig)
    (op : ClientState → ClientState × Option GoError) (operationName : String) :
    Nat → Nat → ClientState → Nat → List Nat → RetryResult ClientState
  | attempt, remaining, s, count, sleeps =>
    if IsAuthFailed s then ⟨s, some authPermanentlyFailedError, count, sleeps⟩
    else
      let p := op s
      match p.2 with
      | Option.none => ⟨p.1, Option.none, count + 1, sleeps⟩
      | some e =>
        if IsPermanentError e then ⟨p.1, some e, count + 1, sleeps⟩
        else
          match remaining with
          | 0 => ⟨p.1, some (.wrap (exhaustionMsg operationName (cfg.MaxRetries + 1)) e),
              count + 1, sleeps⟩
          | r + 1 =>
              retryWithBackoffWithContextAux cfg op operationName (attempt + 1) r p.1
                (count + 1) (sleeps ++ [calculateBackoffDelay cfg attempt])

/-- Embeds `retryWithBackoffWithContext` from `client.go`. -/
def retryWithBackoffWithContext (cfg : RetryConfig)
    (op : ClientState → ClientState × Option GoError) (operationName : String)
    (s : ClientState) : RetryResult ClientState :=
  retryWithBackoffWithContextAux cfg op operationName 0 cfg.MaxRetries s 0 []

/-- Embeds `ensureLoginWithContext` from `client.go`: immediate success when the
cached validity flag is set, otherwise login through the context-aware
retry loop under the operation name `login`. -/
def ensureLoginWithContext (cfg : RetryConfig) (env : Nat → NetResult) (s : ClientState) :
    ClientState × Option GoError :=
  if isCookieValidCached s then (s, Option.none)
  else
    let r := retryWithBackoffWithContext cfg (loginWithContext env) "login" s
    (r.state, r.error)

/-- An HTTP response as `doWithRetry` keeps it across attempts. -/
structure HTTPResp where
  statusCode : Nat
  body : String
  cookies : List (String × String)

/-- Embeds `isRetryableStatusCode` from `sdk.go`. -/
def isRetryableStatusCode (cfg : RetryConfig) (statusCode : Nat) : Bool :=
  cfg.RetryableCodes.any fun code => decide (statusCode = code)

/-- The closure passed by `doWithRetry` (`sdk.go`) to `retryWithBackoff`:
ensure login (wrapping its failure), perform the request, and on a
401/403 response invalidate the cookies and fail the attempt; fail the
attempt likewise on a retryable status code.  The last received response
is carried alongside the client state, as `doWithRetry`'s `resp`
variable. -/
def doWithRetryStep (cfg : RetryConfig) (env : Nat → NetResult)
    (x : ClientState × Option HTTPResp) :
    (ClientState × Option HTTPResp) × Option GoError :=
  let el := ensureLoginWithContext cfg env x.1
  match el.2 with
  | some e => ((el.1, x.2), some (.wrap "failed to ensure login: " e))
  | Option.none =>
    let dr := doRequest env el.1
    match dr.2 with
    | .err e => ((dr.1, x.2), some e)
    | .resp statusCode body cookies =>
      let resp' := some (HTTPResp.mk statusCode body cookies)
      if statusCode = 401 || statusCode = 403 then
        ((invalidateCookies dr.1, resp'),
          some (.str ("authentication error: status code " ++ toString statusCode)))
      else if isRetryableStatusCode cfg statusCode then
        ((dr.1, resp'), some (.str ("retryable status code: " ++ toString statusCode)))
      else ((dr.1, resp'), Option.none)

/-- Embeds `doWithRetry` from `sdk.go`: the step above run through the plain
(no-context) retry loop, labelled by method and endpoint. -/
def doWithRetry (cfg : RetryConfig) (env : Nat → NetResult) (method endpoint : String)
    (s : ClientState) : RetryResult (ClientState × Option HTTPResp) :=
  retryWithBackoff cfg (doWithRetryStep cfg env) (method ++ " " ++ endpoint)
    (s, Option.none)

/-- Embeds `Close` from `client.go`: with no base URL or cookie jar just clear
the local state; otherwise post a best-effort logout and, on every path —
transport error, non-200 status, or success — invalidate the local
session state.  Nothing in `Close` signals or stops the
`startCookieCleanup` goroutine, so `sweepRunning` is untouched. -/
def Close (baseURL : String) (jarNil : Bool) (env : Nat → NetResult) (s : ClientState) :
    ClientState × Option GoError :=
  if baseURL = "" || jarNil then (invalidateCookies s, Option.none)
  else
    let pr := doRequest env s
    match pr.2 with
    | .err e => (invalidateCookies pr.1, some e)
    | .resp statusCode body _ =>
      if statusCode ≠ 200 then
        (invalidateCookies pr.1,
          some (.str ("logout failed. Status: " ++ toString statusCode ++
            ", Response: " ++ body)))
      else (invalidateCookies pr.1, Option.none)

/-- An operation failing every invocation with a permanent error (a DNS
resolution failure), for the C2 counterexample. -/
def permFailOp : Unit → Unit × Option GoError :=
  fun u => (u, some (NewClientError .dns "Failed to resolve hostname: qbt.example"
    Option.none true))

/-- The same always-permanently-failing operation over the client state,
for the C2 witness. -/
def permFailClientOp : ClientState → ClientState × Option GoError :=
  fun s => (s, some (NewClientError .dns "Failed to resolve hostname: qbt.example"
    Option.none true))

/-- Network script for the C1 scenario: the first API request answers 403;
the following accessibility probe and login POST succeed (the login
returns the session cookie `SID`); every later request answers 200. -/
def scenarioEnv : Nat → NetResult
  | 0 => .resp 403 "" []
  | 1 => .resp 200 "" []
  | 2 => .resp 200 "Ok." [("SID", "abc")]
  | _ => .resp 200 "[]" []

/-- C1 scenario start state: a client with a cached-valid session. -/
def scenarioStart : ClientState :=
  { initialClientState with cookieValid := true }

/-- An environment whose every request succeeds with 200, for the C8
counterexample. -/
def closeEnvOK : Nat → NetResult := fun _ => .resp 200 "" []

theorem isClient_NewClientError (c : ErrorCode) (m : String) (e : Option GoError) (p : Bool) :
    isClient (NewClientError c m e p) = true := rfl

theorem isClient_classifyOpError (o m : String) (t : Bool) (e : GoError) :
    isClient (classifyOpError o m t e) = true := by
  unfold classifyOpError
  split_ifs <;> rfl

theorem isClient_classifyByMessage (s : String) (e : GoError) :
    isClient (classifyByMessage s e) = true := by
  simp only [classifyByMessage]
  split_ifs <;> rfl

theorem isClient_certOrMessage (e : GoError) :
    isClient (certOrMessage e) = true := by
  unfold certOrMessage
  split_ifs
  · rfl
  · exact isClient_classifyByMessage _ _

/-- An error that already is a `*ClientError` is found by `errors.As` at
the head of its own chain. -/
theorem asClientError_client (c : ErrorCode) (m : String) (cs : Option GoError) (p : Bool) :
    asClientError (.client c m cs p) = some (.client c m cs p) := by
  cases cs <;> simp [asClientError, chain, isClient, List.find?]

/-- First branch of `ClassifyError`: an already classified error passes
through unchanged. -/
theorem ClassifyError_client (c : ErrorCode) (m : String) (cs : Option GoError) (p : Bool) :
    ClassifyError (.client c m cs p) = .client c m cs p := by
  rw [ClassifyError, asClientError_client]

/-- The classifier `ClassifyError` always produces a `*ClientError`. -/
theorem ClassifyError_isClient (e : GoError) : isClient (ClassifyError e) = true := by
  induction e using ClassifyError.induct with
  | case1 e ce hce =>
    rw [ClassifyError, hce]
    have : asClientError e = some ce := hce
    revert this
    cases hch : chain e with
    | nil => intro h; simp [asClientError, hch, List.find?] at h
    | cons x xs =>
      intro h
      simp only [asClientError, hch] at h
      exact List.find?_some h
  | case2 e hce n hn =>
    rw [ClassifyError, hce, hn]
    rfl
  | case3 e hce hn o msg t hop =>
    rw [ClassifyError, hce, hn, hop]
    exact isClient_classifyOpError _ _ _ _
  | case4 e hce hn hop m t i hurl ih =>
    rw [ClassifyError, hce, hn, hop, hurl]
    exact ih
  | case5 e hce hn hop m hurl =>
    rw [ClassifyError, hce, hn, hop, hurl]
    rfl
  | case6 e hce hn hop m t hurl hnt =>
    rw [ClassifyError, hce, hn, hop, hurl]
    simp only [Bool.not_eq_true] at hnt
    subst hnt
    exact isClient_certOrMessage _
  | case7 e hce hn hop hurl =>
    rw [ClassifyError, hce, hn, hop, hurl]
    exact isClient_certOrMessage _

/-- A list is a leading segment of itself followed by anything. -/
theorem startsWithChars_append [DecidableEq α] :
    ∀ (p r : List α), startsWithChars p (p ++ r) = true
  | [], _ => rfl
  | x :: xs, r => by
    simp only [List.cons_append, startsWithChars, decide_eq_true_eq, List.append_eq,
      Bool.and_eq_true, startsWithChars_append xs r, and_true]

/-- A contiguous segment in the middle of a list is found. -/
theorem containsChars_append [DecidableEq α] :
    ∀ (a p r : List α), containsChars p (a ++ (p ++ r)) = true
  | [], p, r => by
    cases hpr : p ++ r with
    | nil =>
      rcases List.append_eq_nil.mp hpr with ⟨h1, -⟩
      subst h1
      rfl
    | cons y ys =>
      have h := startsWithChars_append p r
      rw [hpr] at h
      simp only [List.nil_append, hpr, containsChars, h, Bool.true_or]
  | x :: a, p, r => by
    simp only [List.cons_append, containsChars, List.append_eq,
      containsChars_append a p r, Bool.or_true]

/-- Lemma: `strings.Contains` finds a substring occurring in the middle. -/
theorem containsSubstr_middle (a p r : String) :
    containsSubstr (a ++ p ++ r) p = true := by
  simp only [containsSubstr, String.data_append, List.append_assoc]
  exact containsChars_append a.data p.data r.data

/-- C6: `ClassifyError` is idempotent.  An error value that already is a
`*ClientError` is returned unchanged by the pass-through branch, and since
`ClassifyError` always produces a `*ClientError`, classifying a classified
error changes nothing: `classify (classify err) = classify err` for every
non-nil error. -/
theorem claim6_ClassifyError_idempotent :
    (∀ (c : ErrorCode) (m : String) (cs : Option GoError) (p : Bool),
      ClassifyError (.client c m cs p) = .client c m cs p) ∧
    (∀ e : GoError, ClassifyError (ClassifyError e) = ClassifyError e) := by
  refine ⟨ClassifyError_client, fun e => ?_⟩
  have h := ClassifyError_isClient e
  cases hE : ClassifyError e with
  | client c m cs p =>
    exact ClassifyError_client c m cs p
  | dns n => rw [hE] at h; simp [isClient] at h
  | op o m t i => rw [hE] at h; simp [isClient] at h
  | url m t i => rw [hE] at h; simp [isClient] at h
  | cert i => rw [hE] at h; simp [isClient] at h
  | wrap p i => rw [hE] at h; simp [isClient] at h
  | str m => rw [hE] at h; simp [isClient] at h

/-- C7: the HTTP status classifier maps 401 and 403 to a permanent
`AuthFailure`; 502 to `BadGateway`, 503 to `ServiceUnavailable` and 504 to
`Timeout`, each non-permanent; and every other status to a non-permanent
`Unknown` whose message carries the status code and the body text. -/
theorem claim7_classifyHTTPStatusCode_mapping :
    ∀ (code : Nat) (body : String),
      ((code = 401 ∨ code = 403) →
        classifyHTTPStatusCode code body =
          NewClientError .authFailure
            ("Authentication failed with status " ++ toString code) Option.none true) ∧
      (code = 502 →
        classifyHTTPStatusCode code body =
          NewClientError .badGateway ("Bad Gateway (502): " ++ body) Option.none false) ∧
      (code = 503 →
        classifyHTTPStatusCode code body =
          NewClientError .serviceUnavailable
            ("Service Unavailable (503): " ++ body) Option.none false) ∧
      (code = 504 →
        classifyHTTPStatusCode code body =
          NewClientError .timeout ("Gateway Timeout (504): " ++ body) Option.none false) ∧
      (code ≠ 401 → code ≠ 403 → code ≠ 502 → code ≠ 503 → code ≠ 504 →
        classifyHTTPStatusCode code body =
          NewClientError .unknown
            ("Request failed with status " ++ toString code ++ ": " ++ body) Option.none false ∧
        containsSubstr (clientMsg (classifyHTTPStatusCode code body)) (toString code) = true ∧
        containsSubstr (clientMsg (classifyHTTPStatusCode code body)) body = true) := by
  intro code body
  refine ⟨?_, ?_, ?_, ?_, ?_⟩
  · rintro (rfl | rfl) <;> rfl
  · rintro rfl; rfl
  · rintro rfl; rfl
  · rintro rfl; rfl
  · intro h1 h2 h3 h4 h5
    have heq : classifyHTTPStatusCode code body =
        NewClientError .unknown
          ("Request failed with status " ++ toString code ++ ": " ++ body) Option.none false := by
      unfold classifyHTTPStatusCode
      split_ifs with g1
      · simp only [Bool.or_eq_true, decide_eq_true_eq] at g1
        rcases g1 with h | h
        · exact absurd h h1
        · exact absurd h h2
      · rfl
    refine ⟨heq, ?_, ?_⟩
    · rw [heq]
      show containsSubstr ("Request failed with status " ++ toString code ++ ": " ++ body)
        (toString code) = true
      have : "Request failed with status " ++ toString code ++ ": " ++ body =
          "Request failed with status " ++ toString code ++ (": " ++ body) := by
        rw [String.append_assoc]
      rw [this]
      exact containsSubstr_middle _ _ _
    · rw [heq]
      show containsSubstr ("Request failed with status " ++ toString code ++ ": " ++ body)
        body = true
      have : "Request failed with status " ++ toString code ++ ": " ++ body =
          ("Request failed with status " ++ toString code ++ ": ") ++ body ++ "" := by
        rw [String.append_assoc, String.append_assoc]
        simp
      rw [this]
      exact containsSubstr_middle _ _ _

/-- When the base delay does not exceed the ceiling, the clamping loop
computes the closed form `min (d * 2 ^ n) maxDelay`. -/
theorem backoffLoop_closed_form :
    ∀ (maxD n d : Nat), d ≤ maxD → backoffLoop maxD n d = min (d * 2 ^ n) maxD := by
  intro maxD n
  induction n with
  | zero =>
    intro d hd
    simp [backoffLoop, Nat.min_eq_left hd]
  | succ n ih =>
    intro d hd
    simp only [backoffLoop]
    split_ifs with hlt
    · have h2 : maxD ≤ d * 2 ^ (n + 1) := by
        have h1 : d * 2 ≤ d * 2 * 2 ^ n :=
          Nat.le_mul_of_pos_right _ (Nat.pos_pow_of_pos n (by omega))
        have : d * 2 * 2 ^ n = d * 2 ^ (n + 1) := by ring
        omega
      rw [Nat.min_eq_right h2]
    · push_neg at hlt
      rw [ih (d * 2) hlt]
      have : d * 2 * 2 ^ n = d * 2 ^ (n + 1) := by ring
      rw [this]

/-- Counterexample to C4: when the configured base delay exceeds the
ceiling (`RetryBackoff = 60s` against the fixed `MaxDelay = 30s`),
attempt 0 returns the base delay unclamped — not
`min(baseDelay * factor^0, maxDelay)` — and the delay sequence is not
monotone (attempt 1 is clamped to 30s, below attempt 0's 60s). -/
theorem claim4_counterexample :
    calculateBackoffDelay (newRetryConfig 3 60000000000) 0 = 60000000000 ∧
    min ((newRetryConfig 3 60000000000).BaseDelay * 2 ^ 0)
      (newRetryConfig 3 60000000000).MaxDelay = 30000000000 ∧
    (60000000000 : Nat) ≠ 30000000000 ∧
    calculateBackoffDelay (newRetryConfig 3 60000000000) 1 <
      calculateBackoffDelay (newRetryConfig 3 60000000000) 0 := by
  refine ⟨rfl, ?_, by decide, by decide⟩
  decide

/-- C4 (amended): whenever the configured base delay does not exceed the
delay ceiling, the computed backoff delay equals
`min (baseDelay * 2 ^ n, maxDelay)` (the factor being pinned at 2.0 by
`newRetryConfig`) and is monotonically non-decreasing in the attempt
index; with base 1s and ceiling 10s the delays are 1s, 2s, 4s, 8s, 10s,
10s.  If the base delay exceeds the ceiling, attempt 0 returns it
unclamped (see the counterexample). -/
theorem claim4_calculateBackoffDelay_closed_form :
    (∀ (cfg : RetryConfig) (n : Nat), cfg.BaseDelay ≤ cfg.MaxDelay →
      calculateBackoffDelay cfg n = min (cfg.BaseDelay * 2 ^ n) cfg.MaxDelay ∧
      calculateBackoffDelay cfg n ≤ calculateBackoffDelay cfg (n + 1)) ∧
    (List.range 6).map (calculateBackoffDelay backoffExampleConfig) =
      [1000000000, 2000000000, 4000000000, 8000000000, 10000000000, 10000000000] := by
  constructor
  · intro cfg n hd
    have h1 := backoffLoop_closed_form cfg.MaxDelay n cfg.BaseDelay hd
    have h2 := backoffLoop_closed_form cfg.MaxDelay (n + 1) cfg.BaseDelay hd
    refine ⟨h1, ?_⟩
    unfold calculateBackoffDelay
    rw [h1, h2]
    have hmul : cfg.BaseDelay * 2 ^ n ≤ cfg.BaseDelay * 2 ^ (n + 1) :=
      Nat.mul_le_mul_left _ (Nat.pow_le_pow_right (by omega) (by omega))
    exact min_le_min hmul (le_refl _)
  · decide

/-- Witness for C4's amended theorem at the default configuration
(base 1s, ceiling 30s) and attempt index 2. -/
theorem claim4_witness :
    (newRetryConfig 3 1000000000).BaseDelay ≤ (newRetryConfig 3 1000000000).MaxDelay ∧
    calculateBackoffDelay (newRetryConfig 3 1000000000) 2 =
      min ((newRetryConfig 3 1000000000).BaseDelay * 2 ^ 2)
        (newRetryConfig 3 1000000000).MaxDelay ∧
    calculateBackoffDelay (newRetryConfig 3 1000000000) 2 ≤
      calculateBackoffDelay (newRetryConfig 3 1000000000) 3 :=
  ⟨by decide,
    (claim4_calculateBackoffDelay_closed_form.1 (newRetryConfig 3 1000000000) 2 (by decide)).1,
    (claim4_calculateBackoffDelay_closed_form.1 (newRetryConfig 3 1000000000) 2 (by decide)).2⟩

/-- Witness for C7 at the concrete statuses 401 and 999. -/
theorem claim7_witness :
    ((401 : Nat) = 401 ∨ (401 : Nat) = 403) ∧
    classifyHTTPStatusCode 401 "b" =
      NewClientError .authFailure
        ("Authentication failed with status " ++ toString (401 : Nat)) Option.none true ∧
    containsSubstr (clientMsg (classifyHTTPStatusCode 999 "oops")) (toString (999 : Nat)) = true ∧
    containsSubstr (clientMsg (classifyHTTPStatusCode 999 "oops")) "oops" = true := by
  refine ⟨Or.inl rfl, (claim7_classifyHTTPStatusCode_mapping 401 "b").1 (Or.inl rfl), ?_, ?_⟩
  · exact ((claim7_classifyHTTPStatusCode_mapping 999 "oops").2.2.2.2 (by decide) (by decide)
      (by decide) (by decide) (by decide)).2.1
  · exact ((claim7_classifyHTTPStatusCode_mapping 999 "oops").2.2.2.2 (by decide) (by decide)
      (by decide) (by decide) (by decide)).2.2

/-- Lemma: `strings.Contains` finds a substring at the front. -/
theorem containsSubstr_left (p r : String) : containsSubstr (p ++ r) p = true := by
  have h := containsChars_append ([] : List Char) p.data r.data
  simpa [containsSubstr, String.data_append] using h

/-- When the operation fails on every invocation, the plain retry loop
performs exactly one invocation per remaining iteration plus one, and
returns the exhaustion wrap of the error produced by its final
invocation. -/
theorem retryWithBackoffAux_allFail {σ : Type} (cfg : RetryConfig)
    (op : σ → σ × Option GoError) (name : String) (P : GoError → Prop)
    (hfail : ∀ t : σ, ∃ e, (op t).2 = some e ∧ P e) :
    ∀ (remaining attempt : Nat) (s : σ) (count : Nat) (sleeps : List Nat),
      (retryWithBackoffAux cfg op name attempt remaining s count sleeps).invocations =
        count + remaining + 1 ∧
      ∃ t e, (op t).2 = some e ∧ P e ∧
        (retryWithBackoffAux cfg op name attempt remaining s count sleeps).state = (op t).1 ∧
        (retryWithBackoffAux cfg op name attempt remaining s count sleeps).error =
          some (.wrap (exhaustionMsg name (cfg.MaxRetries + 1)) e) := by
  intro remaining
  induction remaining with
  | zero =>
    intro attempt s count sleeps
    obtain ⟨e, he, hP⟩ := hfail s
    simp only [retryWithBackoffAux, he]
    exact ⟨trivial, s, e, he, hP, rfl, rfl⟩
  | succ r ih =>
    intro attempt s count sleeps
    obtain ⟨e, he, hP⟩ := hfail s
    rw [retryWithBackoffAux]
    simp only [he]
    have h := ih (attempt + 1) (op s).1 (count + 1)
      (sleeps ++ [calculateBackoffDelay cfg attempt])
    exact ⟨by rw [h.1]; omega, h.2⟩

/-- C3: an operation failing with a transient (non-permanent) error on
every invocation exhausts the retry loop: `retryWithBackoff` invokes it
exactly `MaxRetries + 1` times and returns a wrapped error whose message
contains the operation label and `failed after N attempts` with
`N = MaxRetries + 1`, wrapping the last invocation's error. -/
theorem claim3_retry_exhaustion {σ : Type} (cfg : RetryConfig)
    (op : σ → σ × Option GoError) (name : String) (s : σ)
    (hfail : ∀ t : σ, ∃ e, (op t).2 = some e ∧ IsPermanentError e = false) :
    (retryWithBackoff cfg op name s).invocations = cfg.MaxRetries + 1 ∧
    ∃ t e, (op t).2 = some e ∧ IsPermanentError e = false ∧
      (retryWithBackoff cfg op name s).state = (op t).1 ∧
      (retryWithBackoff cfg op name s).error =
        some (.wrap (exhaustionMsg name (cfg.MaxRetries + 1)) e) ∧
      containsSubstr (errString (.wrap (exhaustionMsg name (cfg.MaxRetries + 1)) e))
        name = true ∧
      containsSubstr (errString (.wrap (exhaustionMsg name (cfg.MaxRetries + 1)) e))
        ("failed after " ++ toString (cfg.MaxRetries + 1) ++ " attempts") = true := by
  have h := retryWithBackoffAux_allFail cfg op name (fun e => IsPermanentError e = false)
    hfail cfg.MaxRetries 0 s 0 []
  unfold retryWithBackoff
  refine ⟨by rw [h.1]; omega, ?_⟩
  obtain ⟨t, e, he, hP, hst, herr⟩ := h.2
  refine ⟨t, e, he, hP, hst, herr, ?_, ?_⟩
  · show containsSubstr (exhaustionMsg name (cfg.MaxRetries + 1) ++ errString e) name = true
    have hsplit : exhaustionMsg name (cfg.MaxRetries + 1) ++ errString e =
        name ++ (" failed after " ++ toString (cfg.MaxRetries + 1) ++ " attempts: " ++
          errString e) := by
      simp [exhaustionMsg, String.append_assoc]
    rw [hsplit]
    exact containsSubstr_left name _
  · show containsSubstr (exhaustionMsg name (cfg.MaxRetries + 1) ++ errString e)
      ("failed after " ++ toString (cfg.MaxRetries + 1) ++ " attempts") = true
    have h3 := containsChars_append (name.data ++ [' '])
      ("failed after ".data ++ ((toString (cfg.MaxRetries + 1)).data ++ " attempts".data))
      (": ".data ++ (errString e).data)
    simp only [containsSubstr, exhaustionMsg, String.data_append]
    simpa [List.append_assoc] using h3

/-- Witness for C3 with an always-transiently-failing operation over the
default configuration. -/
theorem claim3_witness :
    (retryWithBackoff (newRetryConfig 2 1000000000)
        (fun u : Unit => (u, some (GoError.str "persistent error"))) "operation" ()).invocations =
      3 ∧
    (retryWithBackoff (newRetryConfig 2 1000000000)
        (fun u : Unit => (u, some (GoError.str "persistent error"))) "operation" ()).error =
      some (.wrap (exhaustionMsg "operation" 3) (GoError.str "persistent error")) := by
  have h := claim3_retry_exhaustion (newRetryConfig 2 1000000000)
    (fun u : Unit => (u, some (GoError.str "persistent error"))) "operation" ()
    (fun t => ⟨GoError.str "persistent error", rfl, by rw [IsPermanentError, ClassifyError]; rfl⟩)
  obtain ⟨hinv, t, e, he, -, -, herr, -, -⟩ := h
  have hbe : GoError.str "persistent error" = e := by simpa using he
  constructor
  · exact hinv
  · rw [herr, ← hbe]
    rfl

/-- Counterexample to C2: the plain retry executor `retryWithBackoff` —
the one `doWithRetry` passes every API operation to — performs no
permanence check: an operation failing on every invocation with a
permanent DNS error is invoked 3 times under `MaxRetries = 2` (not once),
with two backoff sleeps, and the error is returned wrapped in the
exhaustion message rather than as-is. -/
theorem claim2_counterexample :
    IsPermanentError (NewClientError .dns "Failed to resolve hostname: qbt.example"
      Option.none true) = true ∧
    (retryWithBackoff (newRetryConfig 2 1000000000) permFailOp "op" ()).invocations = 3 ∧
    ¬ (retryWithBackoff (newRetryConfig 2 1000000000) permFailOp "op" ()).invocations = 1 ∧
    (retryWithBackoff (newRetryConfig 2 1000000000) permFailOp "op" ()).sleeps =
      [1000000000, 2000000000] := by
  exact ⟨rfl, rfl, by decide, rfl⟩

/-- C2 (amended): the context-aware retry executor
`retryWithBackoffWithContext` — the one used for login — invokes an
operation that fails on every invocation with a permanent error exactly
once, performs no backoff sleep, and returns that error as-is, provided
the auth-failure latch is clear on entry (when it is set, the operation
is not invoked at all).  The plain `retryWithBackoff` used by
`doWithRetry` retries permanent errors like any other (see the
counterexample). -/
theorem claim2_permanent_short_circuit (cfg : RetryConfig)
    (op : ClientState → ClientState × Option GoError) (name : String) (s : ClientState)
    (h0 : IsAuthFailed s = false)
    (hfail : ∀ t, ∃ e, (op t).2 = some e ∧ IsPermanentError e = true) :
    (retryWithBackoffWithContext cfg op name s).invocations = 1 ∧
    (retryWithBackoffWithContext cfg op name s).sleeps = [] ∧
    (retryWithBackoffWithContext cfg op name s).error = (op s).2 ∧
    (retryWithBackoffWithContext cfg op name s).state = (op s).1 := by
  obtain ⟨e, he, hp⟩ := hfail s
  unfold retryWithBackoffWithContext
  rw [retryWithBackoffWithContextAux]
  simp only [h0, Bool.false_eq_true, if_false, he, hp, if_true]
  exact ⟨trivial, trivial, trivial, trivial⟩

/-- Witness for C2's amended theorem: the always-permanently-failing
operation run from the initial client state. -/
theorem claim2_witness :
    IsAuthFailed initialClientState = false ∧
    (retryWithBackoffWithContext (newRetryConfig 2 1000000000) permFailClientOp "login"
        initialClientState).invocations = 1 ∧
    (retryWithBackoffWithContext (newRetryConfig 2 1000000000) permFailClientOp "login"
        initialClientState).sleeps = [] ∧
    (retryWithBackoffWithContext (newRetryConfig 2 1000000000) permFailClientOp "login"
        initialClientState).error = (permFailClientOp initialClientState).2 := by
  have h := claim2_permanent_short_circuit (newRetryConfig 2 1000000000) permFailClientOp
    "login" initialClientState rfl
    (fun t => ⟨NewClientError .dns "Failed to resolve hostname: qbt.example" Option.none true,
      rfl, rfl⟩)
  exact ⟨rfl, h.1, h.2.1, h.2.2.1⟩

/-- While the auth-failure latch is set, `loginWithContext` fails fast:
the permanent auth error is returned and the state — including the
request counter — is untouched. -/
theorem login_authFailed_failfast (env : Nat → NetResult) (s : ClientState)
    (h : IsAuthFailed s = true) :
    loginWithContext env s = (s, some authPermanentlyFailedError) := by
  unfold loginWithContext
  simp [h]

/-- While the auth-failure latch is set, the context-aware retry loop
aborts before invoking its operation at all. -/
theorem retryCtx_authFailed (cfg : RetryConfig)
    (op : ClientState → ClientState × Option GoError) (name : String) (s : ClientState)
    (h : IsAuthFailed s = true) :
    retryWithBackoffWithContext cfg op name s =
      ⟨s, some authPermanentlyFailedError, 0, []⟩ := by
  unfold retryWithBackoffWithContext
  rw [retryWithBackoffWithContextAux]
  simp [h]

/-- While the auth-failure latch is set and no cached validity short-cut
applies, `ensureLoginWithContext` fails fast with the permanent auth
error, leaving the state untouched. -/
theorem ensureLogin_authFailed (cfg : RetryConfig) (env : Nat → NetResult)
    (s : ClientState) (hc : s.cookieValid = false) (h : IsAuthFailed s = true) :
    ensureLoginWithContext cfg env s = (s, some authPermanentlyFailedError) := by
  unfold ensureLoginWithContext isCookieValidCached
  rw [hc]
  simp [retryCtx_authFailed cfg (loginWithContext env) "login" s h]

/-- The function `ResetAuthFailure` clears the latch and the stored error, resets the
status to `StatusInitializing`, and touches nothing else. -/
theorem ResetAuthFailure_spec (s : ClientState) :
    (ResetAuthFailure s).authFailed = false ∧
    (ResetAuthFailure s).lastError = Option.none ∧
    (ResetAuthFailure s).status = .initializing ∧
    (ResetAuthFailure s).netCount = s.netCount ∧
    (ResetAuthFailure s).cookieCache = s.cookieCache ∧
    (ResetAuthFailure s).cookieValid = s.cookieValid := by
  unfold ResetAuthFailure SetLastError setAuthFailed setStatus
  simp

/-- When the latch is clear, `loginWithContext` always issues at least one
network request (the accessibility probe). -/
theorem loginWithContext_netCount (env : Nat → NetResult) (s : ClientState)
    (h : IsAuthFailed s = false) :
    s.netCount < (loginWithContext env s).1.netCount := by
  unfold loginWithContext checkAccessibility doRequest
  simp only [h, Bool.false_eq_true, if_false]
  cases h1 : env s.netCount with
  | err e =>
    simp only [SetLastError, setStatus, setAuthFailed]
    split_ifs <;> simp
  | resp code body cookies =>
    by_cases h2 : 500 ≤ code
    · simp only [h2, if_true, SetLastError, setStatus, setAuthFailed]
      split_ifs <;> simp
    · simp only [h2, if_false]
      cases h3 : env (s.netCount + 1) with
      | err e =>
        simp only [SetLastError, setStatus, setAuthFailed]
        split_ifs <;> simp <;> omega
      | resp code2 body2 cookies2 =>
        simp only [SetLastError, setStatus, setAuthFailed, setCookieValid, updateCookieCache]
        split_ifs <;> simp <;> omega

/-- C9: whenever the cached session-validity flag is true,
`ensureLoginWithContext` returns success immediately with the state —
cookie cache, validity flag, status, last error, auth-failure flag and
request counter — entirely unchanged, and performs no network request. -/
theorem claim9_ensureLogin_cached_noop (cfg : RetryConfig) (env : Nat → NetResult)
    (s : ClientState) (h : s.cookieValid = true) :
    ensureLoginWithContext cfg env s = (s, Option.none) := by
  unfold ensureLoginWithContext isCookieValidCached
  rw [h]
  simp

/-- Witness for C9: the scenario start state has a valid cached session. -/
theorem claim9_witness :
    scenarioStart.cookieValid = true ∧
    ensureLoginWithContext (newRetryConfig 3 1000000000) scenarioEnv scenarioStart =
      (scenarioStart, Option.none) :=
  ⟨rfl, claim9_ensureLogin_cached_noop (newRetryConfig 3 1000000000) scenarioEnv
    scenarioStart rfl⟩

/-- C5: once the auth-failure latch is set, every login attempt fails
immediately with the permanent auth error without issuing any network
request (the state, including the request counter, is unchanged), and
`ensureAuthenticated` on an invalid session likewise fails fast with the
login operation invoked zero times; `ResetAuthFailure` clears the flag
and the stored error, after which login attempts proceed again (at least
one request is issued, the probe). -/
theorem claim5_auth_latch_blocks_until_reset :
    (∀ (env : Nat → NetResult) (s : ClientState), IsAuthFailed s = true →
      loginWithContext env s = (s, some authPermanentlyFailedError)) ∧
    (∀ (cfg : RetryConfig) (env : Nat → NetResult) (s : ClientState),
      IsAuthFailed s = true → s.cookieValid = false →
      ensureLoginWithContext cfg env s = (s, some authPermanentlyFailedError) ∧
      (retryWithBackoffWithContext cfg (loginWithContext env) "login" s).invocations = 0) ∧
    (∀ s : ClientState,
      (ResetAuthFailure s).authFailed = false ∧
      (ResetAuthFailure s).lastError = Option.none ∧
      (ResetAuthFailure s).status = .initializing) ∧
    (∀ (env : Nat → NetResult) (s : ClientState),
      (ResetAuthFailure s).netCount = s.netCount ∧
      s.netCount < (loginWithContext env (ResetAuthFailure s)).1.netCount) := by
  refine ⟨login_authFailed_failfast, ?_, ?_, ?_⟩
  · intro cfg env s h hc
    refine ⟨ensureLogin_authFailed cfg env s hc h, ?_⟩
    rw [retryCtx_authFailed cfg (loginWithContext env) "login" s h]
  · intro s
    exact ⟨(ResetAuthFailure_spec s).1, (ResetAuthFailure_spec s).2.1,
      (ResetAuthFailure_spec s).2.2.1⟩
  · intro env s
    have hn := (ResetAuthFailure_spec s).2.2.2.1
    refine ⟨hn, ?_⟩
    have hlt := loginWithContext_netCount env (ResetAuthFailure s) (ResetAuthFailure_spec s).1
    rw [hn] at hlt
    exact hlt

/-- Witness for C5 on a concrete latched state. -/
theorem claim5_witness :
    IsAuthFailed { initialClientState with authFailed := true } = true ∧
    loginWithContext scenarioEnv { initialClientState with authFailed := true } =
      ({ initialClientState with authFailed := true }, some authPermanentlyFailedError) ∧
    (ResetAuthFailure { initialClientState with authFailed := true }).authFailed = false := by
  refine ⟨rfl, claim5_auth_latch_blocks_until_reset.1 scenarioEnv _ rfl, ?_⟩
  exact (claim5_auth_latch_blocks_until_reset.2.2.1 _).1

/-- The pass-through branch: when `errors.As` finds a `*ClientError`,
`ClassifyError` returns exactly it. -/
theorem ClassifyError_of_asClientError (e c : GoError) (hc : asClientError e = some c) :
    ClassifyError e = c := by
  rw [ClassifyError, hc]

/-- The function `SetLastError` stores the classification of the given error. -/
theorem SetLastError_stores_classify (s : ClientState) (e : GoError) :
    (SetLastError s (some e)).lastError = some (ClassifyError e) := by
  unfold SetLastError
  cases hc : asClientError e with
  | some c =>
    simp only [hc]
    rw [ClassifyError_of_asClientError e c hc]
    split_ifs <;> simp [setAuthFailed]
  | none =>
    simp only [hc]
    split_ifs <;> simp [setAuthFailed]

/-- The function `SetLastError` latches the auth-failure flag whenever the stored
classification has code `AUTH_FAILURE`. -/
theorem SetLastError_authFailure_latches (s : ClientState) (e : GoError)
    (h : clientCode (ClassifyError e) = some .authFailure) :
    (SetLastError s (some e)).authFailed = true := by
  unfold SetLastError
  cases hc : asClientError e with
  | some c =>
    rw [ClassifyError_of_asClientError e c hc] at h
    simp only [hc]
    simp [h, setAuthFailed]
  | none =>
    simp only [hc]
    simp [h, setAuthFailed]

/-- C10 (implicit): whenever `SetLastError` receives any error whose
classification has code `AUTH_FAILURE` — wherever the error arose — the
`authPermanentlyFailed` flag is latched; in particular an error whose
message merely contains an authentication text pattern (`unauthorized`,
`Fails.`) classifies as `AUTH_FAILURE` and therefore latches the flag,
after which every login attempt fails fast without network traffic until
`ResetAuthFailure` clears the latch. -/
theorem claim10_SetLastError_latches :
    (∀ (s : ClientState) (e : GoError), clientCode (ClassifyError e) = some .authFailure →
      (SetLastError s (some e)).authFailed = true) ∧
    clientCode (ClassifyError (.str "request unauthorized")) = some .authFailure ∧
    clientCode (ClassifyError (.str "operation Fails. try again")) = some .authFailure ∧
    (∀ s : ClientState, (SetLastError s (some (.str "request unauthorized"))).authFailed = true) ∧
    (∀ (env : Nat → NetResult) (s : ClientState), IsAuthFailed s = true →
      loginWithContext env s = (s, some authPermanentlyFailedError)) ∧
    (∀ s : ClientState, (ResetAuthFailure s).authFailed = false) := by
  have hu : clientCode (ClassifyError (.str "request unauthorized")) = some .authFailure := by
    rw [ClassifyError]
    rfl
  have hf : clientCode (ClassifyError (.str "operation Fails. try again")) =
      some .authFailure := by
    rw [ClassifyError]
    rfl
  refine ⟨SetLastError_authFailure_latches, hu, hf, ?_, login_authFailed_failfast, ?_⟩
  · intro s
    exact SetLastError_authFailure_latches s _ hu
  · intro s
    exact (ResetAuthFailure_spec s).1

/-- Witness for C10 at the initial state and a plain string error. -/
theorem claim10_witness :
    clientCode (ClassifyError (.str "request unauthorized")) = some .authFailure ∧
    (SetLastError initialClientState (some (.str "request unauthorized"))).authFailed = true :=
  ⟨claim10_SetLastError_latches.2.1,
    claim10_SetLastError_latches.1 initialClientState (.str "request unauthorized")
      claim10_SetLastError_latches.2.1⟩

/-- Counterexample to C8: `Close` never stops the background expiry
sweep.  On the strongest path for the claim — a fully configured client
whose remote logout succeeds with 200 — the `sweepRunning` flag (the
`startCookieCleanup` goroutine launched by `New`, for which `Close`
contains no stop signal) is still set after `Close` returns. -/
theorem claim8_counterexample :
    initialClientState.sweepRunning = true ∧
    (Close "http://example" false closeEnvOK initialClientState).2 = Option.none ∧
    (Close "http://example" false closeEnvOK initialClientState).1.sweepRunning = true :=
  ⟨rfl, rfl, rfl⟩

/-- C8 (amended): on every execution path of `Close` — unconfigured
client, remote logout succeeding, logout returning a non-200 status, or
the logout request failing with a transport error — the local session
state is invalidated: the cookie cache is emptied, the validity flag
cleared and the status set to `StatusUnauthorized`.  The background
expiry-sweep task is not stopped on any path (`sweepRunning` is
unchanged; see the counterexample). -/
theorem claim8_close_always_invalidates (baseURL : String) (jarNil : Bool)
    (env : Nat → NetResult) (s : ClientState) :
    (Close baseURL jarNil env s).1.cookieCache = [] ∧
    (Close baseURL jarNil env s).1.cookieValid = false ∧
    (Close baseURL jarNil env s).1.status = .unauthorized ∧
    (Close baseURL jarNil env s).1.sweepRunning = s.sweepRunning := by
  unfold Close doRequest
  split_ifs with h
  · simp [invalidateCookies, setStatus, cookieCacheClear, setCookieValid]
  · cases henv : env s.netCount with
    | err e => simp [invalidateCookies, setStatus, cookieCacheClear, setCookieValid]
    | resp code body cookies =>
      dsimp only
      split_ifs with h2 <;>
        simp [invalidateCookies, setStatus, cookieCacheClear, setCookieValid]

/-- C1: when an attempt of the `doWithRetry` closure receives an HTTP
response with status 401 or 403, the session is invalidated — the cookie
cache ends the attempt empty, the validity flag false, the status
`StatusUnauthorized` — and the attempt's error is a plain
`authentication error` string whose classification is not permanent, so
the surrounding retry loop proceeds to the next attempt (whose
`ensureAuthenticated` must re-login) instead of terminating.  In the
concrete scenario (403 on attempt 1, successful re-login and 200 on
attempt 2) the call succeeds after exactly two invocations, the cookie
cache is empty immediately after attempt 1 and holds the session cookie
returned by attempt 2's login at the end. -/
theorem claim1_doWithRetry_self_healing :
    (∀ (cfg : RetryConfig) (env : Nat → NetResult) (s s₁ : ClientState)
        (r0 : Option HTTPResp) (code : Nat) (body : String)
        (ck : List (String × String)),
      ensureLoginWithContext cfg env s = (s₁, Option.none) →
      env s₁.netCount = .resp code body ck →
      code = 401 ∨ code = 403 →
      (doWithRetryStep cfg env (s, r0)).1.1.cookieCache = [] ∧
      (doWithRetryStep cfg env (s, r0)).1.1.cookieValid = false ∧
      (doWithRetryStep cfg env (s, r0)).1.1.status = .unauthorized ∧
      (doWithRetryStep cfg env (s, r0)).2 =
        some (.str ("authentication error: status code " ++ toString code)) ∧
      IsPermanentError (.str ("authentication error: status code " ++ toString code)) =
        false) ∧
    (doWithRetryStep (newRetryConfig 3 1000000000) scenarioEnv
      (scenarioStart, Option.none)).1.1.cookieCache = [] ∧
    (doWithRetryStep (newRetryConfig 3 1000000000) scenarioEnv
      (scenarioStart, Option.none)).1.1.cookieValid = false ∧
    (doWithRetry (newRetryConfig 3 1000000000) scenarioEnv "GET" "u" scenarioStart).error =
      Option.none ∧
    (doWithRetry (newRetryConfig 3 1000000000) scenarioEnv "GET" "u"
      scenarioStart).invocations = 2 ∧
    (doWithRetry (newRetryConfig 3 1000000000) scenarioEnv "GET" "u"
      scenarioStart).state.1.cookieCache = [("SID", "abc")] ∧
    (doWithRetry (newRetryConfig 3 1000000000) scenarioEnv "GET" "u"
      scenarioStart).state.1.cookieValid = true ∧
    (doWithRetry (newRetryConfig 3 1000000000) scenarioEnv "GET" "u"
      scenarioStart).state.2 = some ⟨200, "[]", []⟩ := by
  refine ⟨?_, rfl, rfl, rfl, rfl, rfl, rfl, rfl⟩
  intro cfg env s s₁ r0 code body ck hel henv hcode
  have hperm : ∀ c : Nat, c = 401 ∨ c = 403 →
      IsPermanentError (.str ("authentication error: status code " ++ toString c)) = false := by
    rintro c (rfl | rfl) <;> (rw [IsPermanentError, ClassifyError]; rfl)
  unfold doWithRetryStep
  simp only [hel]
  unfold doRequest
  simp only [henv]
  rcases hcode with rfl | rfl <;>
    simp [invalidateCookies, setStatus, cookieCacheClear, setCookieValid, hperm,
      hperm 401 (Or.inl rfl), hperm 403 (Or.inr rfl)]

/-- Witness for C1 at the scenario's first attempt: the start state has a
valid cached session, the first request answers 403, and the attempt ends
invalidated with a non-permanent error. -/
theorem claim1_witness :
    ensureLoginWithContext (newRetryConfig 3 1000000000) scenarioEnv scenarioStart =
      (scenarioStart, Option.none) ∧
    scenarioEnv scenarioStart.netCount = .resp 403 "" [] ∧
    (doWithRetryStep (newRetryConfig 3 1000000000) scenarioEnv
      (scenarioStart, Option.none)).1.1.cookieCache = [] ∧
    (doWithRetryStep (newRetryConfig 3 1000000000) scenarioEnv
      (scenarioStart, Option.none)).1.1.cookieValid = false ∧
    (doWithRetryStep (newRetryConfig 3 1000000000) scenarioEnv
      (scenarioStart, Option.none)).1.1.status = .unauthorized ∧
    (doWithRetryStep (newRetryConfig 3 1000000000) scenarioEnv
      (scenarioStart, Option.none)).2 =
      some (.str ("authentication error: status code " ++ toString (403 : Nat))) ∧
    IsPermanentError (.str ("authentication error: status code " ++ toString (403 : Nat))) =
      false := by
  have h := claim1_doWithRetry_self_healing.1 (newRetryConfig 3 1000000000) scenarioEnv
    scenarioStart scenarioStart Option.none 403 "" [] rfl rfl (Or.inr rfl)
  exact ⟨rfl, rfl, h.1, h.2.1, h.2.2.1, h.2.2.2.1, h.2.2.2.2⟩

end GoQbt
